import Mathlib

set_option maxRecDepth 4000

/-!
# Verification of the cross-database scan-and-aggregate engine of `db_monitor.py`

This file is a shallow embedding, in Lean 4, of the core of the
`sql-monitoring-tool` repository (`src/db_monitor.py`): the per-database
scan loops (`get_user_databases`, `get_duplicate_indexes`,
`get_unused_indexes`, `analyze_indexes`), the execution-plan pipeline
(`analyze_execution_plan` with its inner `add_nodes_from_xml` /
`process_node` graph builder), and the pure metrics classifier
(`_analyze_plan_metrics`).

External collaborators (the SQL engine, `pandas`, the `xml.etree` parser,
`graphviz` rendering) are modelled as explicit oracles/environments: each
connection-level statement either succeeds or raises with a message, a raw
plan document is either well-formed (carrying its element tree) or
malformed, and rendering either succeeds or raises.  The Python control
flow (`try`/`except`, early returns, mutable connection state) is
translated into explicit state passing with `Except` for uncaught
exceptions.
-/

/-! ## XML element trees (model of `xml.etree.ElementTree` elements)

An element tree is given as a mutual inductive (element / forest of
children) so that all traversals are mutual structural recursions that
compute by `rfl`/`decide`. -/

mutual
/-- An XML element: tag, attributes, ordered children.  This is the shape
`ET.fromstring` yields for a well-formed document. -/
inductive XNode where
  | elem (tag : String) (attribs : List (String × String)) (children : XForest)

/-- An ordered forest of XML elements (the children of an element). -/
inductive XForest where
  | nil
  | cons (head : XNode) (tail : XForest)
end

/-- Builds a forest from a list of elements. -/
def XForest.ofList : List XNode → XForest
  | [] => XForest.nil
  | c :: cs => XForest.cons c (XForest.ofList cs)

/-- Tag of an element. -/
def XNode.tagOf : XNode → String
  | XNode.elem t _ _ => t

/-- Attributes of an element. -/
def XNode.attribsOf : XNode → List (String × String)
  | XNode.elem _ a _ => a

/-- Children of an element. -/
def XNode.childrenOf : XNode → XForest
  | XNode.elem _ _ cs => cs

/-- `node.get(key, default)` of ElementTree. -/
def XNode.getAttr (n : XNode) (key dflt : String) : String :=
  (n.attribsOf.lookup key).getD dflt

/-- `node.get(key)` returning `none` when the attribute is absent
(the SQL `n.value(...)` of the metrics query yields NULL then). -/
def XNode.getAttrOpt (n : XNode) (key : String) : Option String :=
  n.attribsOf.lookup key

mutual
/-- Number of elements in a tree. -/
def XNode.nsize : XNode → ℕ
  | XNode.elem _ _ cs => 1 + XForest.fsize cs

/-- Number of elements in a forest. -/
def XForest.fsize : XForest → ℕ
  | XForest.nil => 0
  | XForest.cons c cs => XNode.nsize c + XForest.fsize cs
end

mutual
/-- All elements of a forest together with their strict descendants, in
document order, each paired with its position (path of child indices):
for the forest at path `p`, starting at child index `i`, each element is
listed, followed by its own strict descendants.  This is the order
`findall('.//TAG')` traverses before tag filtering. -/
def descsF : List ℕ → ℕ → XForest → List (List ℕ × XNode)
  | _, _, XForest.nil => []
  | p, i, XForest.cons c rest =>
      (p ++ [i], c) :: (descsN (p ++ [i]) c ++ descsF p (i + 1) rest)

/-- All strict descendants of an element with their paths, in document
order: the semantics of `elem.findall('.//TAG')` before tag filtering. -/
def descsN : List ℕ → XNode → List (List ℕ × XNode)
  | p, XNode.elem _ _ cs => descsF p 0 cs
end

/-- `elem.findall('.//RelOp')`: every strict descendant tagged `RelOp`,
at any depth, in document order, paired with its path.  The path serves
as the per-instance identity that `str(hash(str(node)))` provides in the
source (unique per element instance, not per operator kind). -/
def relOpDescs (p : List ℕ) (n : XNode) : List (List ℕ × XNode) :=
  (descsN p n).filter fun q => q.2.tagOf == "RelOp"

/-! ## Numeric attribute parsing and cost formatting -/

/-- Value of a decimal digit character. -/
def digitVal (c : Char) : ℕ := c.toNat - 48

/-- Reads a digit string as a natural number. -/
def readNatDigits (s : List Char) : ℕ :=
  s.foldl (fun a c => a * 10 + digitVal c) 0

/-- `float(s)` for the decimal attribute strings carried by plan
documents (optional sign, integer part, optional fraction), as an exact
rational. -/
def parseFloatQ (s : String) : ℚ :=
  let cs := s.toList
  let neg := cs.headD ' ' = '-'
  let body := if neg then cs.drop 1 else cs
  let intPart := body.takeWhile (fun c => c ≠ '.')
  let frac := (body.dropWhile (fun c => c ≠ '.')).drop 1
  let v : ℚ := (readNatDigits intPart : ℚ) + (readNatDigits frac : ℚ) / ((10 : ℚ) ^ frac.length)
  if neg then -v else v

/-- Hundredths rendered as a decimal string with two digits after the
point. -/
def fmtHundredths (n : ℕ) : String :=
  toString (n / 100) ++ "." ++ (if n % 100 < 10 then "0" else "") ++ toString (n % 100)

/-- `f"{x:.2f}"` on a cost value: the number of hundredths nearest to
`x`, rendered with two digits after the point.  The floor division
`(200·num + den).fdiv (2·den)` is exactly `⌊100·x + 1/2⌋`, the nearest
integer to `100·x` (rounding half up; plan costs are nonnegative and the
claims never sit on a half-tie, where binary floating point would decide
the direction). -/
def formatCost2 (x : ℚ) : String :=
  let r : ℤ := (200 * x.num + (x.den : ℤ)).fdiv (2 * (x.den : ℤ))
  if r < 0 then "-" ++ fmtHundredths (-r).toNat else fmtHundredths r.toNat

/-! ## Cost tier (the colour coding of `process_node`) -/

/-- Visual severity tier of an operator node. -/
inductive Tier where
  | high
  | medium
  | normal
deriving DecidableEq

/-- The tier chosen by `process_node`'s colour coding:
`if float(est_cost) > 10: red / elif float(est_cost) > 1: orange / else`. -/
def costTier (c : ℚ) : Tier :=
  if 10 < c then Tier.high else if 1 < c then Tier.medium else Tier.normal

/-! ## Graph builder: `add_nodes_from_xml` / `process_node` -/

/-- A statement appended to the graphviz `Digraph` body: either a node
statement (with its identity, label and tier) or an edge statement. -/
inductive GStmt where
  | nodeStmt (id : List ℕ) (label : String) (tier : Tier)
  | edgeStmt (src dst : List ℕ)
deriving DecidableEq

/-- Is this an edge statement? -/
def GStmt.isEdge : GStmt → Bool
  | GStmt.edgeStmt _ _ => true
  | _ => false

/-- Is this a node statement? -/
def GStmt.isNode : GStmt → Bool
  | GStmt.nodeStmt _ _ _ => true
  | _ => false

/-- `process_node(node, parent_id)`: emits a node statement for `node`
(identity unique per instance = its path), an edge statement from
`parent_id` when present, then recurses — exactly as in the source — over
`node.findall('.//RelOp')`, i.e. over every `RelOp` descendant at any
depth, passing `node` as the parent.  The recursion consumes fuel; the
top-level call supplies `root.nsize`, which strictly dominates the
nesting depth, so the fuel never runs out on the actual traversal. -/
def process_node (fuel : ℕ) (pn : List ℕ × XNode) (parent : Option (List ℕ)) : List GStmt :=
  match fuel with
  | 0 => []
  | fuel + 1 =>
      let nid := pn.1
      let opType := pn.2.getAttr "PhysicalOp" "Unknown"
      let estRows := pn.2.getAttr "EstimateRows" "0"
      let estCost := pn.2.getAttr "EstimatedTotalSubtreeCost" "0"
      let label := opType ++ "\\nRows: " ++ estRows ++ "\\nCost: " ++ estCost
      (GStmt.nodeStmt nid label (costTier (parseFloatQ estCost)) ::
        (match parent with
         | some pid => [GStmt.edgeStmt pid nid]
         | none => [])) ++
      ((relOpDescs pn.1 pn.2).map fun c => process_node fuel c (some nid)).flatten

/-- `add_nodes_from_xml(xml_str, dot)` after a successful
`ET.fromstring`: `for rel_op in root.findall('.//RelOp'): process_node(rel_op)`. -/
def add_nodes_from_xml (root : XNode) : List GStmt :=
  ((relOpDescs [] root).map fun c => process_node root.nsize c none).flatten

/-! ### Concrete plan documents used in the analysis -/

/-- Innermost operator: a RelOp `C` with no children. -/
def relOpC : XNode := XNode.elem "RelOp" [("PhysicalOp", "C")] XForest.nil

/-- Middle operator: a RelOp `B` whose only child is `C`. -/
def relOpB : XNode := XNode.elem "RelOp" [("PhysicalOp", "B")] (XForest.ofList [relOpC])

/-- Outermost operator: a RelOp `A` (cost 12) whose only child is `B`. -/
def relOpA : XNode :=
  XNode.elem "RelOp" [("PhysicalOp", "A"), ("EstimatedTotalSubtreeCost", "12")]
    (XForest.ofList [relOpB])

/-- A plan document with three nested RelOps `A ⊃ B ⊃ C`. -/
def docABC : XNode := XNode.elem "ShowPlanXML" [] (XForest.ofList [relOpA])


/-! ## Plan metrics extraction (the `metrics_query` of `analyze_execution_plan`)

The SQL metrics query casts the raw plan text to XML and selects, for
every `//RelOp` node in document order, the attributes below; an absent
numeric attribute yields SQL NULL (a pandas NaN), and the
missing-statistics marker is `COALESCE`d to the sentinel `'None'`. -/

/-- One row of the metrics DataFrame produced by `analyze_execution_plan`. -/
structure MetricsRow where
  operation : String
  estimatedCost : Option ℚ
  estimatedRows : Option ℚ
  estimatedIO : Option ℚ
  estimatedCPU : Option ℚ
  parallelCost : Option ℚ
  missingStats : String
  logicalOperation : String
deriving DecidableEq

/-- First child of a forest carrying the given tag. -/
def XForest.findByTag : XForest → String → Option XNode
  | XForest.nil, _ => none
  | XForest.cons c rest, t => if c.tagOf == t then some c else rest.findByTag t

/-- `n.value('(./Warnings/ColumnsWithNoStatistics/@NoStatistics)[1]', ...)`
with its `COALESCE(..., 'None')` default. -/
def missingStatsOf (n : XNode) : String :=
  (((n.childrenOf.findByTag "Warnings").bind
      fun w => w.childrenOf.findByTag "ColumnsWithNoStatistics").bind
    fun c => c.getAttrOpt "NoStatistics").getD "None"

/-- A numeric attribute as the SQL `float` value: NULL (`none`) when the
attribute is absent. -/
def numAttr (n : XNode) (key : String) : Option ℚ :=
  (n.getAttrOpt key).map parseFloatQ

/-- The metrics row of one `RelOp` element.  A NULL `PhysicalOp` /
`LogicalOp` surfaces as the string `"None"` in the report, which is how
pandas renders it in the produced findings. -/
def rowOfRelOp (n : XNode) : MetricsRow :=
  { operation := (n.getAttrOpt "PhysicalOp").getD "None"
    estimatedCost := numAttr n "EstimatedTotalSubtreeCost"
    estimatedRows := numAttr n "EstimateRows"
    estimatedIO := numAttr n "EstimateIO"
    estimatedCPU := numAttr n "EstimateCPU"
    parallelCost := numAttr n "ParallelSubtreeCost"
    missingStats := missingStatsOf n
    logicalOperation := (n.getAttrOpt "LogicalOp").getD "None" }

/-- The metrics DataFrame: one row per `//RelOp` node of the parsed plan,
in document order. -/
def extract_metrics (root : XNode) : List MetricsRow :=
  (relOpDescs [] root).map fun q => rowOfRelOp q.2

/-! ## The classifier `_analyze_plan_metrics` -/

/-- The pandas comparison `column > threshold`: false on NULL/NaN. -/
def costAbove (c : Option ℚ) (t : ℚ) : Bool :=
  match c with
  | some v => decide (t < v)
  | none => false

/-- The per-row finding text for an expensive operation:
`f"Expensive operation found: {op['Operation']} (Cost: {op['EstimatedCost']:.2f})"`. -/
def expensiveFinding (r : MetricsRow) : String :=
  "Expensive operation found: " ++ r.operation ++ " (Cost: " ++
    formatCost2 (r.estimatedCost.getD 0) ++ ")"

/-- `_analyze_plan_metrics(metrics_df)`: on an empty table, the single
"unable to analyze" finding; otherwise one finding per row with
`EstimatedCost > 1` (in row order), then at most one summary finding each
for missing statistics, positive non-null parallel cost, and estimated
rows over 10000, in that order. -/
def _analyze_plan_metrics (metrics : List MetricsRow) : List String :=
  if metrics.isEmpty then ["Unable to analyze execution plan metrics"]
  else
    ((metrics.filter fun r => costAbove r.estimatedCost 1).map expensiveFinding)
    ++ (if metrics.any fun r => r.missingStats != "None" then
          ["Missing statistics detected - consider updating statistics"] else [])
    ++ (if metrics.any fun r => costAbove r.parallelCost 0 then
          ["Query uses parallel execution - consider reviewing parallelism threshold"] else [])
    ++ (if metrics.any fun r => costAbove r.estimatedRows 10000 then
          ["Large number of rows being processed - consider adding indexes or optimizing joins"]
        else [])

/-- A metrics table with a single row: operation `Hash Match`,
estimated cost 15.0, nothing else noteworthy. -/
def hashMatchRow : MetricsRow :=
  { operation := "Hash Match"
    estimatedCost := some 15
    estimatedRows := some 100
    estimatedIO := some 0
    estimatedCPU := some 0
    parallelCost := none
    missingStats := "None"
    logicalOperation := "Inner Join" }


/-! ## The per-database scan loops

`get_duplicate_indexes`, `get_unused_indexes` and `analyze_indexes` all
have the same shape: enumerate the user databases, then for each one
`try: USE [db]; read_sql(query); USE [master]` with an `except` handler
that logs the exception and issues an unprotected `USE [master]`.  The
SQL engine is an oracle: `execFails k stmt` is the exception message, if
any, raised by the `k`-th connection statement of the scan (the
operation counter makes outcomes per-call, so the same statement text may
fail once and succeed on retry), and `queryRows db` is the data the
diagnostic query returns when it succeeds against `db`. -/

/-- One row of a diagnostic result set (opaque to the scan logic). -/
abbrev Row := String

/-- A statement executed on the scan connection. -/
inductive ConnStmt where
  | useStmt (name : String)
  | queryStmt (db : String)
deriving DecidableEq

/-- The environment of one scan: the outcome of the database enumeration
and, for each connection statement (by operation index), whether it
raises (`some message`) or succeeds, plus the rows each per-database
query yields on success. -/
structure Env where
  enumResult : Except String (List String)
  execFails : ℕ → ConnStmt → Option String
  queryRows : String → List Row

/-- The mutable state of one scan: the connection's current database,
the number of connection statements attempted so far, the list of
per-database DataFrames collected, and the logger's error lines. -/
structure ScanState where
  curDb : String
  opCount : ℕ
  results : List (List Row)
  logs : List String
deriving DecidableEq

/-- `get_user_databases`: returns the enumerated names, or — when the
metadata query raises — logs `"Error getting user databases: ..."` and
returns the empty list.  The caller cannot tell a failed enumeration from
a server with no user databases. -/
def get_user_databases (env : Env) : List String × List String :=
  match env.enumResult with
  | Except.ok names => (names, [])
  | Except.error e => ([], ["Error getting user databases: " ++ e])

/-- The `except` handler of one loop iteration: log the exception tagged
with the database name, then issue `USE [master]` *unprotected* — if that
statement itself raises, the exception escapes the loop (`Except.error`). -/
def handleScanError (env : Env) (tag db e : String) (s : ScanState) : Except ScanState ScanState :=
  let s1 : ScanState :=
    { s with logs := s.logs ++ ["Error " ++ tag ++ " for database " ++ db ++ ": " ++ e] }
  match env.execFails s1.opCount (ConnStmt.useStmt "master") with
  | some _ => Except.error { s1 with opCount := s1.opCount + 1 }
  | none => Except.ok { s1 with opCount := s1.opCount + 1, curDb := "master" }

/-- One iteration of the scan loop over database `db`: the `try` block
(`USE [db]`, the diagnostic query, `USE [master]`) with any raise routed
to `handleScanError`. -/
def scanIter (env : Env) (tag db : String) (s : ScanState) : Except ScanState ScanState :=
  match env.execFails s.opCount (ConnStmt.useStmt db) with
  | some e => handleScanError env tag db e { s with opCount := s.opCount + 1 }
  | none =>
    let s1 : ScanState := { s with opCount := s.opCount + 1, curDb := db }
    match env.execFails s1.opCount (ConnStmt.queryStmt db) with
    | some e => handleScanError env tag db e { s1 with opCount := s1.opCount + 1 }
    | none =>
      let s2 : ScanState :=
        { s1 with opCount := s1.opCount + 1, results := s1.results ++ [env.queryRows db] }
      match env.execFails s2.opCount (ConnStmt.useStmt "master") with
      | some e => handleScanError env tag db e { s2 with opCount := s2.opCount + 1 }
      | none => Except.ok { s2 with opCount := s2.opCount + 1, curDb := "master" }

/-- The scan loop: iterate `scanIter` over the database list; an
exception escaping one iteration (`Except.error`) aborts the loop, so the
remaining databases are never scanned. -/
def scanAll (env : Env) (tag : String) : List String → ScanState → Except ScanState ScanState
  | [], s => Except.ok s
  | db :: rest, s =>
    match scanIter env tag db s with
    | Except.ok s2 => scanAll env tag rest s2
    | Except.error s2 => Except.error s2

/-- Initial connection state: the connection starts on the engine's
default (administrative) database with the enumeration step's log lines
already recorded. -/
def initState (logs0 : List String) : ScanState :=
  { curDb := "master", opCount := 0, results := [], logs := logs0 }

/-- The common body of the three cross-database scans:
`pd.concat(results) if results else pd.DataFrame()` is the flattened row
list.  An uncaught exception inside the loop propagates to the caller as
`Except.error` (no rows are returned then). -/
def runScan (env : Env) (tag : String) : Except ScanState (List Row × ScanState) :=
  match scanAll env tag (get_user_databases env).1 (initState (get_user_databases env).2) with
  | Except.ok s => Except.ok (s.results.flatten, s)
  | Except.error s => Except.error s

/-- `get_duplicate_indexes`. -/
def get_duplicate_indexes (env : Env) : Except ScanState (List Row × ScanState) :=
  runScan env "getting duplicate indexes"

/-- `get_unused_indexes`. -/
def get_unused_indexes (env : Env) : Except ScanState (List Row × ScanState) :=
  runScan env "getting unused indexes"

/-- `analyze_indexes`. -/
def analyze_indexes (env : Env) : Except ScanState (List Row × ScanState) :=
  runScan env "analyzing indexes"

/-! ## The execution-plan pipeline `analyze_execution_plan` -/

/-- The parse failure `ET.fromstring` raises on a document that is not
well-formed XML (Python's `xml.etree.ElementTree.ParseError`); the SQL
`CAST(... AS XML)` of the metrics query fails on exactly the same
documents. -/
structure PlanParseError where
  message : String
deriving DecidableEq

/-- A raw plan document as fetched from the server: either well-formed
(carrying the element tree a parse yields) or malformed text. -/
inductive RawDoc where
  | wellFormed (root : XNode)
  | malformed (text : String)

/-- `ET.fromstring`: yields the element tree of a well-formed document
and raises a parse error — never any other error type — on a malformed
one. -/
def et_fromstring : RawDoc → Except PlanParseError XNode
  | RawDoc.wellFormed root => Except.ok root
  | RawDoc.malformed text => Except.error { message := text }

/-- The environment of one `analyze_execution_plan` call: whether each
`USE [name]` raises, the outcome of the `SHOWPLAN_XML` fetch (raise /
no row / a raw document), whether the metrics query raises for reasons
other than a malformed document, whether `dot.render` raises, and the
timestamped path the diagram is rendered to. -/
structure PlanEnv where
  useFails : String → Bool
  planResult : Except String (Option RawDoc)
  metricsFails : Bool
  renderFails : Bool
  renderPath : String

/-- Outcome of the `try` block of `analyze_execution_plan`: either a
value returned normally or an exception raised, in both cases together
with the connection's current database at that moment. -/
inductive PlanOutcome where
  | raised (cur : String)
  | returned (res : List MetricsRow × String) (cur : String)

/-- Tail of the pipeline after the optional reset to master: build the
graph (`add_nodes_from_xml` on the already-parsed tree) and render it. -/
def planRender (env : PlanEnv) (metrics : List MetricsRow) (root : XNode) (cur : String) :
    PlanOutcome :=
  let _stmts := add_nodes_from_xml root
  if env.renderFails then PlanOutcome.raised cur
  else PlanOutcome.returned (metrics, env.renderPath ++ ".svg") cur

/-- Pipeline after the optional `USE [database]`: fetch the plan (an
empty fetch returns early with `(empty, "")` and — notably — without any
reset to master), run the metrics query (which parses the document
server-side), reset to master only when a database was given, then build
and render the graph. -/
def planAfterUse (env : PlanEnv) (database : Option String) (cur : String) : PlanOutcome :=
  match env.planResult with
  | Except.error _ => PlanOutcome.raised cur
  | Except.ok none => PlanOutcome.returned ([], "") cur
  | Except.ok (some raw) =>
    if env.metricsFails then PlanOutcome.raised cur
    else
      match et_fromstring raw with
      | Except.error _ => PlanOutcome.raised cur
      | Except.ok root =>
        let metrics := extract_metrics root
        match database with
        | some _ =>
          if env.useFails "master" then PlanOutcome.raised cur
          else planRender env metrics root "master"
        | none => planRender env metrics root cur

/-- The whole `try` block of `analyze_execution_plan`. -/
def planTryBody (env : PlanEnv) (database : Option String) : PlanOutcome :=
  match database with
  | some db =>
    if env.useFails db then PlanOutcome.raised "master"
    else planAfterUse env database db
  | none => planAfterUse env none "master"

/-- `analyze_execution_plan(query, database)`: the `try` block wrapped in
the `except` handler that logs and returns `(pd.DataFrame(), "")`.  The
value is the returned pair together with the connection's database at
exit (the connection itself is closed by the `with` block in either
case). -/
def analyze_execution_plan (env : PlanEnv) (database : Option String) :
    (List MetricsRow × String) × String :=
  match planTryBody env database with
  | PlanOutcome.returned res cur => (res, cur)
  | PlanOutcome.raised cur => (([], ""), cur)

/-- Does everything after the initial `USE [database]` succeed: the plan
fetch returns a row with a well-formed document, the metrics query
succeeds, the reset to master (when a database was given) succeeds, and
the diagram render succeeds?  This is exactly the condition under which
the `try` block of `analyze_execution_plan` reaches its final
`return`. -/
def planTailSucceeds (env : PlanEnv) (database : Option String) : Bool :=
  (match env.planResult with
   | Except.ok (some (RawDoc.wellFormed _)) => true
   | _ => false) &&
  !env.metricsFails &&
  (match database with
   | some _ => !env.useFails "master"
   | none => true) &&
  !env.renderFails

/-- Does the whole pipeline of `analyze_execution_plan` succeed,
including the initial `USE [database]` switch? -/
def planPipelineSucceeds (env : PlanEnv) (database : Option String) : Bool :=
  (match database with
   | some db => !env.useFails db
   | none => true) &&
  planTailSucceeds env database

/-! ## Concrete environments used as test vectors -/

/-- Two user databases; the diagnostic query raises against `A` and the
connection is then gone: the handler's `USE [master]` (operation 2)
raises as well. -/
def envAbortMidScan : Env :=
  { enumResult := Except.ok ["A", "B"]
    execFails := fun n _ => if n == 1 || n == 2 then some "connection lost" else none
    queryRows := fun _ => ["r"] }

/-- Two user databases; only the diagnostic query against `A` raises,
every `USE` statement succeeds. -/
def envIsolOne : Env :=
  { enumResult := Except.ok ["A", "B"]
    execFails := fun _ stmt =>
      match stmt with
      | ConnStmt.queryStmt "A" => some "bad schema"
      | _ => none
    queryRows := fun _ => ["r"] }

/-- The database enumeration itself raises; everything else would
succeed. -/
def envEnumFails : Env :=
  { enumResult := Except.error "metadata query failed"
    execFails := fun _ _ => none
    queryRows := fun _ => ["r"] }

/-- One user database scanned cleanly, every statement succeeds. -/
def envAllOk : Env :=
  { enumResult := Except.ok ["A"]
    execFails := fun _ _ => none
    queryRows := fun _ => ["r"] }

/-- The switch-back `USE [master]` after a successful query against `A`
raises (operation 2), and so does the handler's retry (operation 3). -/
def envResetAlwaysFails : Env :=
  { enumResult := Except.ok ["A", "B"]
    execFails := fun _ stmt =>
      match stmt with
      | ConnStmt.useStmt "master" => some "reset failed"
      | _ => none
    queryRows := fun _ => ["r"] }

/-- The switch-back `USE [master]` after a successful query against `A`
raises (operation 2), but the handler's retry (operation 3) succeeds. -/
def envResetFailsOnce : Env :=
  { enumResult := Except.ok ["A"]
    execFails := fun n _ => if n == 2 then some "reset hiccup" else none
    queryRows := fun _ => ["r"] }

/-- A plan environment whose `SHOWPLAN_XML` fetch raises; all `USE`
statements succeed. -/
def penvFetchRaises : PlanEnv :=
  { useFails := fun _ => false
    planResult := Except.error "plan fetch failed"
    metricsFails := false
    renderFails := false
    renderPath := "plans/execution_plan_x" }

/-- A plan environment that fetches a malformed plan document; nothing
else fails. -/
def penvMalformed : PlanEnv :=
  { useFails := fun _ => false
    planResult := Except.ok (some (RawDoc.malformed "<bad"))
    metricsFails := false
    renderFails := false
    renderPath := "plans/execution_plan_x" }

/-- A plan environment where everything succeeds and the fetched plan is
the well-formed `docABC`. -/
def penvAllOk : PlanEnv :=
  { useFails := fun _ => false
    planResult := Except.ok (some (RawDoc.wellFormed docABC))
    metricsFails := false
    renderFails := false
    renderPath := "plans/execution_plan_x" }

/-- A plan environment where everything succeeds except `dot.render`,
which raises. -/
def penvRenderFails : PlanEnv :=
  { useFails := fun _ => false
    planResult := Except.ok (some (RawDoc.wellFormed docABC))
    metricsFails := false
    renderFails := true
    renderPath := "plans/execution_plan_x" }

/-- A plan environment where everything succeeds except the reset
`USE [master]`, which raises. -/
def penvResetFails : PlanEnv :=
  { useFails := fun name => name == "master"
    planResult := Except.ok (some (RawDoc.wellFormed docABC))
    metricsFails := false
    renderFails := false
    renderPath := "plans/execution_plan_x" }

/-- A plan environment where everything succeeds except the metrics
query, which raises. -/
def penvMetricsFails : PlanEnv :=
  { useFails := fun _ => false
    planResult := Except.ok (some (RawDoc.wellFormed docABC))
    metricsFails := true
    renderFails := false
    renderPath := "plans/execution_plan_x" }

/-! ## Helper lemmas about the scan loop -/

/-- Rows contributed by one database, given its outcome (`none` =
succeeded, `some e` = its iteration raised `e`). -/
def rowsOfOutcome (env : Env) (p : String × Option String) : Option (List Row) :=
  match p.2 with
  | none => some (env.queryRows p.1)
  | some _ => none

/-- Log line contributed by one database, given its outcome. -/
def logOfOutcome (tag : String) (p : String × Option String) : Option String :=
  match p.2 with
  | none => none
  | some e => some ("Error " ++ tag ++ " for database " ++ p.1 ++ ": " ++ e)

theorem scanIter_eq_of_use_raises (env : Env) (tag db e : String) (s : ScanState)
    (hA : env.execFails s.opCount (ConnStmt.useStmt db) = some e)
    (hM : env.execFails (s.opCount + 1) (ConnStmt.useStmt "master") = none) :
    scanIter env tag db s = Except.ok
      { curDb := "master", opCount := s.opCount + 1 + 1, results := s.results,
        logs := s.logs ++ ["Error " ++ tag ++ " for database " ++ db ++ ": " ++ e] } := by
  simp [scanIter, handleScanError, hA, hM]

theorem scanIter_eq_of_query_raises (env : Env) (tag db e : String) (s : ScanState)
    (hA : env.execFails s.opCount (ConnStmt.useStmt db) = none)
    (hB : env.execFails (s.opCount + 1) (ConnStmt.queryStmt db) = some e)
    (hM : env.execFails (s.opCount + 1 + 1) (ConnStmt.useStmt "master") = none) :
    scanIter env tag db s = Except.ok
      { curDb := "master", opCount := s.opCount + 1 + 1 + 1, results := s.results,
        logs := s.logs ++ ["Error " ++ tag ++ " for database " ++ db ++ ": " ++ e] } := by
  simp [scanIter, handleScanError, hA, hB, hM]

theorem scanIter_eq_of_success (env : Env) (tag db : String) (s : ScanState)
    (hA : env.execFails s.opCount (ConnStmt.useStmt db) = none)
    (hB : env.execFails (s.opCount + 1) (ConnStmt.queryStmt db) = none)
    (hM : env.execFails (s.opCount + 1 + 1) (ConnStmt.useStmt "master") = none) :
    scanIter env tag db s = Except.ok
      { curDb := "master", opCount := s.opCount + 1 + 1 + 1,
        results := s.results ++ [env.queryRows db], logs := s.logs } := by
  simp [scanIter, handleScanError, hA, hB, hM]

/-- Under the hypothesis that every `USE [master]` statement of the scan
succeeds, the loop never aborts: every database is attempted, each either
contributing its rows (outcome `none`) or a tagged log line (outcome
`some e`), and the connection ends on master. -/
theorem scanAll_isolated (env : Env) (tag : String)
    (h : ∀ n, env.execFails n (ConnStmt.useStmt "master") = none) :
    ∀ (dbs : List String) (s0 : ScanState),
    ∃ (s : ScanState) (outcomes : List (Option String)),
      scanAll env tag dbs s0 = Except.ok s ∧
      outcomes.length = dbs.length ∧
      s.results = s0.results ++ (dbs.zip outcomes).filterMap (rowsOfOutcome env) ∧
      s.logs = s0.logs ++ (dbs.zip outcomes).filterMap (logOfOutcome tag) ∧
      (s.curDb = "master" ∨ s.curDb = s0.curDb) := by
  intro dbs
  induction dbs with
  | nil =>
    intro s0
    exact ⟨s0, [], rfl, rfl, by simp, by simp, Or.inr rfl⟩
  | cons db rest ih =>
    intro s0
    rcases hA : env.execFails s0.opCount (ConnStmt.useStmt db) with _ | e
    · rcases hB : env.execFails (s0.opCount + 1) (ConnStmt.queryStmt db) with _ | e
      · -- the whole iteration succeeds
        have hstep := scanIter_eq_of_success env tag db s0 hA hB (h _)
        obtain ⟨s, outcomes, h1, h2, h3, h4, h5⟩ := ih
          { curDb := "master", opCount := s0.opCount + 1 + 1 + 1,
            results := s0.results ++ [env.queryRows db], logs := s0.logs }
        refine ⟨s, none :: outcomes, ?_, by simpa using h2, ?_, ?_, ?_⟩
        · rw [scanAll, hstep]
          exact h1
        · rw [h3]
          simp [rowsOfOutcome]
        · rw [h4]
          simp [logOfOutcome]
        · rcases h5 with h5 | h5
          · exact Or.inl h5
          · exact Or.inl h5
      · -- the diagnostic query raises, the handler recovers
        have hstep := scanIter_eq_of_query_raises env tag db e s0 hA hB (h _)
        obtain ⟨s, outcomes, h1, h2, h3, h4, h5⟩ := ih
          { curDb := "master", opCount := s0.opCount + 1 + 1 + 1,
            results := s0.results,
            logs := s0.logs ++ ["Error " ++ tag ++ " for database " ++ db ++ ": " ++ e] }
        refine ⟨s, some e :: outcomes, ?_, by simpa using h2, ?_, ?_, ?_⟩
        · rw [scanAll, hstep]
          exact h1
        · rw [h3]
          simp [rowsOfOutcome]
        · rw [h4]
          simp [logOfOutcome]
        · rcases h5 with h5 | h5
          · exact Or.inl h5
          · exact Or.inl h5
    · -- `USE [db]` raises, the handler recovers
      have hstep := scanIter_eq_of_use_raises env tag db e s0 hA (h _)
      obtain ⟨s, outcomes, h1, h2, h3, h4, h5⟩ := ih
        { curDb := "master", opCount := s0.opCount + 1 + 1,
          results := s0.results,
          logs := s0.logs ++ ["Error " ++ tag ++ " for database " ++ db ++ ": " ++ e] }
      refine ⟨s, some e :: outcomes, ?_, by simpa using h2, ?_, ?_, ?_⟩
      · rw [scanAll, hstep]
        exact h1
      · rw [h3]
        simp [rowsOfOutcome]
      · rw [h4]
        simp [logOfOutcome]
      · rcases h5 with h5 | h5
        · exact Or.inl h5
        · exact Or.inl h5

/-- `runScan` under the hypothesis that every `USE [master]` succeeds:
the scan returns normally; the combined rows are exactly the flattened
per-database rows of the databases whose iteration succeeded, the log
holds one tagged line per database whose iteration raised, and the
connection ends on master. -/
theorem runScan_isolated (env : Env) (tag : String)
    (h : ∀ n, env.execFails n (ConnStmt.useStmt "master") = none) :
    ∃ (s : ScanState) (outcomes : List (Option String)),
      outcomes.length = (get_user_databases env).1.length ∧
      runScan env tag = Except.ok
        ((((get_user_databases env).1.zip outcomes).filterMap (rowsOfOutcome env)).flatten, s) ∧
      s.logs = (get_user_databases env).2 ++
        ((get_user_databases env).1.zip outcomes).filterMap (logOfOutcome tag) ∧
      s.curDb = "master" := by
  obtain ⟨s, outcomes, h1, h2, h3, h4, h5⟩ :=
    scanAll_isolated env tag h (get_user_databases env).1 (initState (get_user_databases env).2)
  refine ⟨s, outcomes, h2, ?_, ?_, ?_⟩
  · unfold runScan
    rw [h1]
    dsimp only
    rw [h3]
    simp [initState]
  · rw [h4]
    simp [initState]
  · rcases h5 with h5 | h5
    · exact h5
    · simpa [initState] using h5

/-! ## C1: per-database failure isolation -/

/-- C1 (counterexample): a query failure against database `A` whose
recovery `USE [master]` also fails (a connectivity loss) escapes the
loop: `get_duplicate_indexes` propagates the exception, database `B` —
although it would have produced rows — is never scanned, and no combined
result is returned at all. -/
theorem get_duplicate_indexes_aborts_after_failed_recovery :
    (get_user_databases envAbortMidScan).1 = ["A", "B"] ∧
    envAbortMidScan.queryRows "B" = ["r"] ∧
    get_duplicate_indexes envAbortMidScan = Except.error
      { curDb := "A", opCount := 3, results := [],
        logs := ["Error getting duplicate indexes for database A: connection lost"] } :=
  ⟨rfl, rfl, rfl⟩

/-- C1 (amended): provided the `USE [master]` statements of the scan
never themselves raise, a failure while scanning database N is caught at
that database's granularity, recorded as a log entry tagged with that
database's name, and never prevents the scan of the remaining databases:
both `get_duplicate_indexes` and `get_unused_indexes` return normally
with the combined result holding exactly the rows of the databases whose
iteration succeeded. -/
theorem per_database_failure_isolation (env : Env)
    (h : ∀ n, env.execFails n (ConnStmt.useStmt "master") = none) :
    (∃ (s : ScanState) (outcomes : List (Option String)),
      outcomes.length = (get_user_databases env).1.length ∧
      get_duplicate_indexes env = Except.ok
        ((((get_user_databases env).1.zip outcomes).filterMap (rowsOfOutcome env)).flatten, s) ∧
      s.logs = (get_user_databases env).2 ++
        ((get_user_databases env).1.zip outcomes).filterMap
          (logOfOutcome "getting duplicate indexes")) ∧
    (∃ (s : ScanState) (outcomes : List (Option String)),
      outcomes.length = (get_user_databases env).1.length ∧
      get_unused_indexes env = Except.ok
        ((((get_user_databases env).1.zip outcomes).filterMap (rowsOfOutcome env)).flatten, s) ∧
      s.logs = (get_user_databases env).2 ++
        ((get_user_databases env).1.zip outcomes).filterMap
          (logOfOutcome "getting unused indexes")) := by
  constructor
  · obtain ⟨s, outcomes, h1, h2, h3, _⟩ := runScan_isolated env "getting duplicate indexes" h
    exact ⟨s, outcomes, h1, h2, h3⟩
  · obtain ⟨s, outcomes, h1, h2, h3, _⟩ := runScan_isolated env "getting unused indexes" h
    exact ⟨s, outcomes, h1, h2, h3⟩

/-- C1 witness: the hypothesis and conclusion of
`per_database_failure_isolation` at the concrete `envIsolOne`, where only
the diagnostic query against `A` raises. -/
theorem per_database_failure_isolation_witness :
    (∀ n, envIsolOne.execFails n (ConnStmt.useStmt "master") = none) ∧
    ((∃ (s : ScanState) (outcomes : List (Option String)),
      outcomes.length = (get_user_databases envIsolOne).1.length ∧
      get_duplicate_indexes envIsolOne = Except.ok
        ((((get_user_databases envIsolOne).1.zip outcomes).filterMap
            (rowsOfOutcome envIsolOne)).flatten, s) ∧
      s.logs = (get_user_databases envIsolOne).2 ++
        ((get_user_databases envIsolOne).1.zip outcomes).filterMap
          (logOfOutcome "getting duplicate indexes")) ∧
    (∃ (s : ScanState) (outcomes : List (Option String)),
      outcomes.length = (get_user_databases envIsolOne).1.length ∧
      get_unused_indexes envIsolOne = Except.ok
        ((((get_user_databases envIsolOne).1.zip outcomes).filterMap
            (rowsOfOutcome envIsolOne)).flatten, s) ∧
      s.logs = (get_user_databases envIsolOne).2 ++
        ((get_user_databases envIsolOne).1.zip outcomes).filterMap
          (logOfOutcome "getting unused indexes"))) :=
  ⟨fun _ => rfl, per_database_failure_isolation envIsolOne (fun _ => rfl)⟩

/-! ## C8: failure of the step-0 enumeration -/

/-- C8 (counterexample): when the enumeration of user databases fails,
the scans do *not* surface the error — `get_duplicate_indexes`,
`get_unused_indexes` and `analyze_indexes` all return normally with an
empty result and the failure recorded only in the log, indistinguishable
from a server with no user databases. -/
theorem scans_swallow_enumeration_error :
    envEnumFails.enumResult = Except.error "metadata query failed" ∧
    get_duplicate_indexes envEnumFails = Except.ok ([],
      { curDb := "master", opCount := 0, results := [],
        logs := ["Error getting user databases: metadata query failed"] }) ∧
    get_unused_indexes envEnumFails = Except.ok ([],
      { curDb := "master", opCount := 0, results := [],
        logs := ["Error getting user databases: metadata query failed"] }) ∧
    analyze_indexes envEnumFails = Except.ok ([],
      { curDb := "master", opCount := 0, results := [],
        logs := ["Error getting user databases: metadata query failed"] }) :=
  ⟨rfl, rfl, rfl, rfl⟩

/-- C8 (amended): if the enumeration fails, `get_user_databases` catches
the exception, logs it and returns the empty list, so every
cross-database scan runs over zero databases and returns an empty
combined result with no error surfaced to the caller. -/
theorem scans_return_empty_when_enumeration_fails (env : Env) (e : String)
    (h : env.enumResult = Except.error e) :
    get_duplicate_indexes env =
      Except.ok ([], initState ["Error getting user databases: " ++ e]) ∧
    get_unused_indexes env =
      Except.ok ([], initState ["Error getting user databases: " ++ e]) ∧
    analyze_indexes env =
      Except.ok ([], initState ["Error getting user databases: " ++ e]) := by
  have hg : get_user_databases env = ([], ["Error getting user databases: " ++ e]) := by
    simp [get_user_databases, h]
  refine ⟨?_, ?_, ?_⟩ <;>
    simp [get_duplicate_indexes, get_unused_indexes, analyze_indexes, runScan, hg, scanAll,
      initState]

/-- C8 witness: the hypothesis and conclusion of
`scans_return_empty_when_enumeration_fails` at the concrete
`envEnumFails`. -/
theorem scans_return_empty_when_enumeration_fails_witness :
    envEnumFails.enumResult = Except.error "metadata query failed" ∧
    (get_duplicate_indexes envEnumFails =
        Except.ok ([], initState ["Error getting user databases: " ++ "metadata query failed"]) ∧
      get_unused_indexes envEnumFails =
        Except.ok ([], initState ["Error getting user databases: " ++ "metadata query failed"]) ∧
      analyze_indexes envEnumFails =
        Except.ok ([], initState ["Error getting user databases: " ++ "metadata query failed"])) :=
  ⟨rfl, scans_return_empty_when_enumeration_fails envEnumFails "metadata query failed" rfl⟩

/-! ## C9: failure of the switch-back to master -/

/-- C9 (counterexample): when the switch-back `USE [master]` raises after
a successful query against `A` and its retry in the handler raises too,
the exception escapes `get_duplicate_indexes`: the already-collected rows
of `A` are discarded (the caller sees an exception, not a result) and
database `B` is never scanned — contradicting "only logged, never masks
the result, never aborts the remainder". -/
theorem reset_failure_aborts_and_discards_rows :
    (get_user_databases envResetAlwaysFails).1 = ["A", "B"] ∧
    get_duplicate_indexes envResetAlwaysFails = Except.error
      { curDb := "A", opCount := 4, results := [["r"]],
        logs := ["Error getting duplicate indexes for database A: reset failed"] } :=
  ⟨rfl, rfl⟩

/-- C9 (amended): a switch-back failure after a successful per-database
query is caught by the iteration's handler, logged tagged with the
database name, and — provided the handler's own `USE [master]` retry
succeeds — the iteration completes normally with the collected rows
preserved and the loop continues with the remaining databases.  Only
when the retry also raises does the exception propagate. -/
theorem reset_failure_logged_and_recovered (env : Env) (tag db e : String) (s : ScanState)
    (h1 : env.execFails s.opCount (ConnStmt.useStmt db) = none)
    (h2 : env.execFails (s.opCount + 1) (ConnStmt.queryStmt db) = none)
    (h3 : env.execFails (s.opCount + 1 + 1) (ConnStmt.useStmt "master") = some e)
    (h4 : env.execFails (s.opCount + 1 + 1 + 1) (ConnStmt.useStmt "master") = none) :
    scanIter env tag db s = Except.ok
      { curDb := "master", opCount := s.opCount + 1 + 1 + 1 + 1,
        results := s.results ++ [env.queryRows db],
        logs := s.logs ++ ["Error " ++ tag ++ " for database " ++ db ++ ": " ++ e] } ∧
    ∀ rest : List String, scanAll env tag (db :: rest) s =
      scanAll env tag rest
        { curDb := "master", opCount := s.opCount + 1 + 1 + 1 + 1,
          results := s.results ++ [env.queryRows db],
          logs := s.logs ++ ["Error " ++ tag ++ " for database " ++ db ++ ": " ++ e] } := by
  have hit : scanIter env tag db s = Except.ok
      { curDb := "master", opCount := s.opCount + 1 + 1 + 1 + 1,
        results := s.results ++ [env.queryRows db],
        logs := s.logs ++ ["Error " ++ tag ++ " for database " ++ db ++ ": " ++ e] } := by
    simp [scanIter, handleScanError, h1, h2, h3, h4]
  exact ⟨hit, fun rest => by rw [scanAll, hit]⟩

/-- C9 witness: the hypotheses and conclusion of
`reset_failure_logged_and_recovered` at the concrete `envResetFailsOnce`,
where the reset raises once (operation 2) and the retry succeeds. -/
theorem reset_failure_logged_and_recovered_witness :
    envResetFailsOnce.execFails 2 (ConnStmt.useStmt "master") = some "reset hiccup" ∧
    scanIter envResetFailsOnce "analyzing indexes" "A" (initState []) = Except.ok
      { curDb := "master", opCount := 4, results := [["r"]],
        logs := ["Error analyzing indexes for database A: reset hiccup"] } :=
  ⟨rfl, (reset_failure_logged_and_recovered envResetFailsOnce "analyzing indexes" "A"
      "reset hiccup" (initState []) rfl rfl rfl rfl).1⟩

/-! ## C2: restoration of the session's database -/

/-- C2 (counterexample): in `analyze_execution_plan`, once
`USE [SalesDb]` has succeeded, a raise during the plan fetch is caught by
the enclosing handler which returns `(empty, "")` immediately — no
`USE [master]` is ever issued on that path, so the call returns with the
session still on `SalesDb`, not the default. -/
theorem analyze_execution_plan_skips_restore_on_failure :
    analyze_execution_plan penvFetchRaises (some "SalesDb") = ((([], "")), "SalesDb") ∧
    ("SalesDb" == "master") = false :=
  ⟨rfl, rfl⟩

/-- C2 (amended): the index-scan loops do restore master on every
completed call (their `try` and `except` paths both issue
`USE [master]`), provided that statement itself never raises; in
`analyze_execution_plan` the session is back on master only when a
database was specified and every step up to the reset succeeds — on the
failure paths and the no-plan early return the reset is skipped and the
connection is simply closed. -/
theorem session_restored_when_pipeline_cooperates (env : Env) (penv : PlanEnv) (db : String)
    (root : XNode)
    (h1 : ∀ n, env.execFails n (ConnStmt.useStmt "master") = none)
    (h2 : penv.useFails db = false)
    (h3 : penv.useFails "master" = false)
    (h4 : penv.metricsFails = false)
    (h5 : penv.renderFails = false)
    (h6 : penv.planResult = Except.ok (some (RawDoc.wellFormed root))) :
    (∃ rows s, analyze_indexes env = Except.ok (rows, s) ∧ s.curDb = "master") ∧
    (analyze_execution_plan penv (some db)).2 = "master" := by
  constructor
  · obtain ⟨s, outcomes, hlen, hrun, hlogs, hcur⟩ := runScan_isolated env "analyzing indexes" h1
    exact ⟨_, s, hrun, hcur⟩
  · simp [analyze_execution_plan, planTryBody, planAfterUse, planRender, et_fromstring,
      h2, h3, h4, h5, h6]

/-- C2 witness: the hypotheses and conclusion of
`session_restored_when_pipeline_cooperates` at `envAllOk` / `penvAllOk`
with database `X` and the well-formed plan `docABC`. -/
theorem session_restored_when_pipeline_cooperates_witness :
    (∀ n, envAllOk.execFails n (ConnStmt.useStmt "master") = none) ∧
    penvAllOk.useFails "X" = false ∧
    penvAllOk.useFails "master" = false ∧
    penvAllOk.metricsFails = false ∧
    penvAllOk.renderFails = false ∧
    penvAllOk.planResult = Except.ok (some (RawDoc.wellFormed docABC)) ∧
    ((∃ rows s, analyze_indexes envAllOk = Except.ok (rows, s) ∧ s.curDb = "master") ∧
      (analyze_execution_plan penvAllOk (some "X")).2 = "master") :=
  ⟨fun _ => rfl, rfl, rfl, rfl, rfl, rfl,
    session_restored_when_pipeline_cooperates envAllOk penvAllOk "X" docABC
      (fun _ => rfl) rfl rfl rfl rfl rfl⟩

/-! ## C3: malformed plan documents -/

/-- On a malformed document the pipeline raises at the parse and
`planAfterUse` ends in the raised state, whatever else the environment
does. -/
theorem planAfterUse_malformed (env : PlanEnv) (database : Option String) (cur text : String)
    (h : env.planResult = Except.ok (some (RawDoc.malformed text))) :
    planAfterUse env database cur = PlanOutcome.raised cur := by
  by_cases hm : env.metricsFails <;> simp [planAfterUse, h, hm, et_fromstring]

/-- C3: decoding a malformed plan document fails with a parse error and
no other error type (`et_fromstring` returns in `Except PlanParseError`),
and the caller of `analyze_execution_plan` then receives the empty
metrics table and the empty diagram path — the failure is caught inside
the call and never propagates. -/
theorem malformed_plan_yields_empty_result (env : PlanEnv) (database : Option String)
    (text : String) (h : env.planResult = Except.ok (some (RawDoc.malformed text))) :
    (∃ e : PlanParseError, et_fromstring (RawDoc.malformed text) = Except.error e) ∧
    (analyze_execution_plan env database).1 = ([], "") := by
  refine ⟨⟨{ message := text }, rfl⟩, ?_⟩
  cases database with
  | none =>
    simp [analyze_execution_plan, planTryBody, planAfterUse_malformed env none "master" text h]
  | some db =>
    by_cases hu : env.useFails db
    · simp [analyze_execution_plan, planTryBody, hu]
    · simp [analyze_execution_plan, planTryBody, hu,
        planAfterUse_malformed env (some db) db text h]

/-- C3 witness: the hypothesis and conclusion of
`malformed_plan_yields_empty_result` at the concrete `penvMalformed`. -/
theorem malformed_plan_yields_empty_result_witness :
    penvMalformed.planResult = Except.ok (some (RawDoc.malformed "<bad")) ∧
    ((∃ e : PlanParseError, et_fromstring (RawDoc.malformed "<bad") = Except.error e) ∧
      (analyze_execution_plan penvMalformed none).1 = ([], "")) :=
  ⟨rfl, malformed_plan_yields_empty_result penvMalformed none "<bad" rfl⟩

/-! ## C10: totality and failure behaviour of `analyze_execution_plan` -/

/-- Exact characterization of the pipeline tail: it ends in the full
metrics-and-diagram pair precisely when `planTailSucceeds`; whenever any
remaining step fails — fetch raise, no plan row, malformed document,
metrics-query raise, reset raise, render raise — it ends raised or with
the early-return empty pair. -/
theorem planAfterUse_spec (env : PlanEnv) (database : Option String) (cur : String) :
    (planTailSucceeds env database = true ∧
      ∃ root, env.planResult = Except.ok (some (RawDoc.wellFormed root)) ∧
        ∃ c, planAfterUse env database cur =
          PlanOutcome.returned (extract_metrics root, env.renderPath ++ ".svg") c) ∨
    (planTailSucceeds env database = false ∧
      ((∃ c, planAfterUse env database cur = PlanOutcome.raised c) ∨
       (∃ c, planAfterUse env database cur = PlanOutcome.returned ([], "") c))) := by
  rcases hp : env.planResult with e | od
  · exact Or.inr ⟨by simp [planTailSucceeds, hp],
      Or.inl ⟨cur, by simp [planAfterUse, hp]⟩⟩
  · rcases od with _ | raw
    · exact Or.inr ⟨by simp [planTailSucceeds, hp],
        Or.inr ⟨cur, by simp [planAfterUse, hp]⟩⟩
    · rcases raw with root | text
      · by_cases hm : env.metricsFails
        · exact Or.inr ⟨by simp [planTailSucceeds, hp, hm],
            Or.inl ⟨cur, by simp [planAfterUse, hp, hm]⟩⟩
        · rcases database with _ | db
          · by_cases hr : env.renderFails
            · exact Or.inr ⟨by simp [planTailSucceeds, hp, hm, hr],
                Or.inl ⟨cur, by simp [planAfterUse, planRender, hp, hm, hr, et_fromstring]⟩⟩
            · exact Or.inl ⟨by simp [planTailSucceeds, hp, hm, hr], root, rfl, cur,
                by simp [planAfterUse, planRender, hp, hm, hr, et_fromstring]⟩
          · by_cases hmu : env.useFails "master"
            · exact Or.inr ⟨by simp [planTailSucceeds, hp, hmu],
                Or.inl ⟨cur, by simp [planAfterUse, hp, hm, hmu, et_fromstring]⟩⟩
            · by_cases hr : env.renderFails
              · exact Or.inr ⟨by simp [planTailSucceeds, hp, hm, hmu, hr],
                  Or.inl ⟨"master",
                    by simp [planAfterUse, planRender, hp, hm, hmu, hr, et_fromstring]⟩⟩
              · exact Or.inl ⟨by simp [planTailSucceeds, hp, hm, hmu, hr], root, rfl, "master",
                  by simp [planAfterUse, planRender, hp, hm, hmu, hr, et_fromstring]⟩
      · exact Or.inr ⟨by simp [planTailSucceeds, hp],
          Or.inl ⟨cur, planAfterUse_malformed env database cur text hp⟩⟩

/-- C10: for every environment and database argument,
`analyze_execution_plan` returns a pair and never propagates an
exception, and its failure behaviour is exact: whenever *any* internal
step fails — the initial `USE [database]`, the plan fetch (raise or no
row), the document parse, the metrics query, the reset `USE [master]`,
or the diagram render — the returned pair is the empty metrics table
with the empty path; only when every step succeeds does it return the
extracted metrics with the rendered diagram path. -/
theorem analyze_execution_plan_total (env : PlanEnv) (database : Option String) :
    (planPipelineSucceeds env database = false →
      (analyze_execution_plan env database).1 = ([], "")) ∧
    (planPipelineSucceeds env database = true →
      ∃ root, env.planResult = Except.ok (some (RawDoc.wellFormed root)) ∧
        (analyze_execution_plan env database).1 =
          (extract_metrics root, env.renderPath ++ ".svg")) := by
  cases database with
  | none =>
    rcases planAfterUse_spec env none "master" with
      ⟨ht, root, hres, c, hc⟩ | ⟨ht, hout⟩
    · refine ⟨fun hfail => absurd hfail ?_, fun _ => ⟨root, hres, ?_⟩⟩
      · simp [planPipelineSucceeds, ht]
      · simp [analyze_execution_plan, planTryBody, hc]
    · refine ⟨fun _ => ?_, fun htrue => absurd htrue ?_⟩
      · rcases hout with ⟨c, hc⟩ | ⟨c, hc⟩ <;>
          simp [analyze_execution_plan, planTryBody, hc]
      · simp [planPipelineSucceeds, ht]
  | some db =>
    by_cases hu : env.useFails db
    · refine ⟨fun _ => ?_, fun htrue => absurd htrue ?_⟩
      · simp [analyze_execution_plan, planTryBody, hu]
      · simp [planPipelineSucceeds, hu]
    · rcases planAfterUse_spec env (some db) db with
        ⟨ht, root, hres, c, hc⟩ | ⟨ht, hout⟩
      · refine ⟨fun hfail => absurd hfail ?_, fun _ => ⟨root, hres, ?_⟩⟩
        · simp [planPipelineSucceeds, hu, ht]
        · simp [analyze_execution_plan, planTryBody, hu, hc]
      · refine ⟨fun _ => ?_, fun htrue => absurd htrue ?_⟩
        · rcases hout with ⟨c, hc⟩ | ⟨c, hc⟩ <;>
            simp [analyze_execution_plan, planTryBody, hu, hc]
        · simp [planPipelineSucceeds, hu, ht]

/-- C10 witness: `analyze_execution_plan_total` applied at concrete
environments covering the failure modes the claim names — a render
failure, a reset (`USE [master]`) failure and a metrics-query failure
each yield `([], "")` — and, at the all-succeeding environment, the full
metrics-and-diagram pair. -/
theorem analyze_execution_plan_total_witness :
    planPipelineSucceeds penvRenderFails (some "X") = false ∧
    (analyze_execution_plan penvRenderFails (some "X")).1 = ([], "") ∧
    planPipelineSucceeds penvResetFails (some "X") = false ∧
    (analyze_execution_plan penvResetFails (some "X")).1 = ([], "") ∧
    planPipelineSucceeds penvMetricsFails (some "X") = false ∧
    (analyze_execution_plan penvMetricsFails (some "X")).1 = ([], "") ∧
    planPipelineSucceeds penvAllOk (some "X") = true ∧
    (∃ root, penvAllOk.planResult = Except.ok (some (RawDoc.wellFormed root)) ∧
      (analyze_execution_plan penvAllOk (some "X")).1 =
        (extract_metrics root, penvAllOk.renderPath ++ ".svg")) :=
  ⟨rfl, (analyze_execution_plan_total penvRenderFails (some "X")).1 rfl,
   rfl, (analyze_execution_plan_total penvResetFails (some "X")).1 rfl,
   rfl, (analyze_execution_plan_total penvMetricsFails (some "X")).1 rfl,
   rfl, (analyze_execution_plan_total penvAllOk (some "X")).2 rfl⟩

/-! ## C4: the graph builder on nested operators -/

/-- C4: evaluation of the graph builder at the three-operator nested plan
`docABC` (`A ⊃ B ⊃ C`).  Because `process_node` recurses over
`findall('.//RelOp')` — all *descendants*, not the direct children its
own comment announces — and the top-level loop also visits every
descendant of the root, the builder emits an edge from `A` to its
grandchild `C`, emits the `B → C` edge twice, and processes nested
operators repeatedly: 7 node statements and 4 edge statements for a plan
with exactly 3 operators, where one node per operator and one edge per
direct parent-child pair (3 and 2) were intended. -/
theorem add_nodes_from_xml_descendant_edges :
    (relOpDescs [] docABC).length = 3 ∧
    GStmt.edgeStmt [0] [0, 0, 0] ∈ add_nodes_from_xml docABC ∧
    ((add_nodes_from_xml docABC).filter GStmt.isEdge).length = 4 ∧
    ((add_nodes_from_xml docABC).filter GStmt.isNode).length = 7 := by
  decide

/-! ## C5: cost tiers -/

/-- C5: the tier is a function of the estimated subtree cost alone, the
three tiers are mutually exclusive and exhaustive with `cost > 10` high,
`1 < cost ≤ 10` medium and `cost ≤ 1` normal; in particular cost 10 is
medium, 10.01 is high, 1 is normal and 1.01 is medium. -/
theorem costTier_boundaries :
    (∀ c : ℚ, (costTier c = Tier.high ↔ 10 < c) ∧
      (costTier c = Tier.medium ↔ 1 < c ∧ c ≤ 10) ∧
      (costTier c = Tier.normal ↔ c ≤ 1)) ∧
    costTier 10 = Tier.medium ∧ costTier (10.01 : ℚ) = Tier.high ∧
    costTier 1 = Tier.normal ∧ costTier (1.01 : ℚ) = Tier.medium := by
  refine ⟨fun c => ?_, ?_, ?_, ?_, ?_⟩
  · by_cases h10 : 10 < c
    · have h1 : (1 : ℚ) < c := by linarith
      have hA : ¬ c ≤ 10 := not_le.mpr h10
      have hB : ¬ c ≤ 1 := not_le.mpr h1
      simp [costTier, h10, h1, hA, hB]
    · by_cases h1 : (1 : ℚ) < c
      · have hA : c ≤ 10 := not_lt.mp h10
        have hB : ¬ c ≤ 1 := not_le.mpr h1
        simp [costTier, h10, h1, hA, hB]
      · have hB : c ≤ 1 := not_lt.mp h1
        simp [costTier, h10, h1, hB]
  · norm_num [costTier]
  · norm_num [costTier]
  · norm_num [costTier]
  · norm_num [costTier]

/-- C5 witness: the boundary values of `costTier_boundaries` at the
concrete costs 10 and 1. -/
theorem costTier_boundaries_witness :
    costTier 10 = Tier.medium ∧ costTier 1 = Tier.normal :=
  ⟨costTier_boundaries.2.1, costTier_boundaries.2.2.2.1⟩

/-! ## C6 and C7: the classifier -/

/-- C6: on a non-empty metrics table the classifier emits one
`"Expensive operation found: {operator} (Cost: {cost:.2f})"` finding per
row with estimated cost above 1, in row order, followed by at most one
summary finding each for missing statistics, positive non-null parallel
cost, and estimated rows above 10000, in that fixed order; a single row
with cost 15.0 and operator `Hash Match` yields exactly the finding
`"Expensive operation found: Hash Match (Cost: 15.00)"`. -/
theorem classifier_findings (metrics : List MetricsRow) (h : metrics ≠ []) :
    _analyze_plan_metrics metrics =
      ((metrics.filter fun r => costAbove r.estimatedCost 1).map expensiveFinding)
      ++ (if metrics.any fun r => r.missingStats != "None" then
            ["Missing statistics detected - consider updating statistics"] else [])
      ++ (if metrics.any fun r => costAbove r.parallelCost 0 then
            ["Query uses parallel execution - consider reviewing parallelism threshold"] else [])
      ++ (if metrics.any fun r => costAbove r.estimatedRows 10000 then
            ["Large number of rows being processed - consider adding indexes or optimizing joins"]
          else []) ∧
    "Expensive operation found: Hash Match (Cost: 15.00)" ∈
      _analyze_plan_metrics [hashMatchRow] := by
  constructor
  · have hne : metrics.isEmpty = false := by
      cases metrics with
      | nil => exact absurd rfl h
      | cons a l => rfl
    simp [_analyze_plan_metrics, hne]
  · decide

/-- C6 witness: the hypothesis and the Hash-Match conclusion of
`classifier_findings` at the one-row table `[hashMatchRow]`. -/
theorem classifier_findings_witness :
    ([hashMatchRow] : List MetricsRow) ≠ [] ∧
    "Expensive operation found: Hash Match (Cost: 15.00)" ∈
      _analyze_plan_metrics [hashMatchRow] :=
  ⟨by decide, (classifier_findings [hashMatchRow] (by decide)).2⟩

/-- C7: on the empty metrics table the classifier returns exactly one
finding, the "unable to analyze" text, and none of the four diagnostic
checks contributes anything. -/
theorem classifier_empty_table :
    _analyze_plan_metrics [] = ["Unable to analyze execution plan metrics"] ∧
    (_analyze_plan_metrics []).length = 1 :=
  ⟨rfl, rfl⟩
